import Mathlib

/-!
Verification development for the HealthKit export pipeline
(`healthkit_to_parquet.py`, `healthkit_duckdb.py`, `raw_export_audit.py`).

Python strings are embedded as `List Char`; Python float values as the
inductive `PyFloat` (finite values carried exactly as rationals, plus the
special values produced by the `inf`/`nan` spellings); absent values
(`None`) as `Option`.
-/

abbrev Str := List Char

/-- Conversion from a Lean string literal to the `List Char` embedding. -/
def s2l (s : String) : Str := s.toList

/-- Model of a Python float value: a finite value (kept exactly as a
rational), a signed infinity (`true` meaning negative), or a NaN. -/
inductive PyFloat where
  | finite : ℚ → PyFloat
  | inf : Bool → PyFloat
  | nan : PyFloat
deriving DecidableEq, Repr

/-- Python truthiness of an optional float: `None`, `0.0` are falsy;
every other float (including infinities and NaN) is truthy. -/
def pyTruthyF : Option PyFloat → Bool
  | none => false
  | some (PyFloat.finite q) => decide (q ≠ 0)
  | some _ => true

/-- Division of a rational by a natural number, implemented through
`mkRat` so that closed instances reduce inside the kernel. -/
def qDivNat (a : ℚ) (n : ℕ) : ℚ := mkRat a.num (a.den * n)

/-- Multiplication of a rational by the constant `cn / cd`, implemented
through `mkRat` so that closed instances reduce inside the kernel. -/
def qMulC (a : ℚ) (cn : ℤ) (cd : ℕ) : ℚ := mkRat (a.num * cn) (a.den * cd)

/-- Division of a Python float by 60 (`x / 60`): exact on finite values,
fixed point on infinities and NaN. -/
def pfDiv60 : PyFloat → PyFloat
  | PyFloat.finite q => PyFloat.finite (qDivNat q 60)
  | x => x

/-- Multiplication of a Python float by the mile-to-kilometre constant
(`x *= 1.60934`): exact on finite values, fixed point on infinities
(the constant is positive) and NaN. -/
def pfMulMi : PyFloat → PyFloat
  | PyFloat.finite q => PyFloat.finite (qMulC q 160934 100000)
  | x => x

/-- The whitespace characters stripped by CPython float parsing. -/
def pyWs (c : Char) : Bool :=
  c = ' ' || c = '\t' || c = '\n' || c = '\r' || c = '\x0b' || c = '\x0c'

/-- Strip leading and trailing whitespace (CPython strips both ends
before parsing a float literal). -/
def stripWs (s : Str) : Str :=
  ((s.dropWhile pyWs).reverse.dropWhile pyWs).reverse

/-- Split an optional leading sign; `true` means negative. -/
def splitSign : Str → Bool × Str
  | '+' :: r => (false, r)
  | '-' :: r => (true, r)
  | s => (false, s)

/-- ASCII lowercasing of an embedded string. -/
def lowerStr (s : Str) : Str := s.map Char.toLower

/-- Continuation of a digit run after at least one digit has been read:
digits accumulate; an underscore is accepted only when a digit follows
immediately (PEP 515: underscores sit between digits). Returns the
collected digits (underscores removed) and the unconsumed remainder. -/
def digitRunGo : Str → Str × Str
  | [] => ([], [])
  | c :: rest =>
    if c.isDigit then
      let (ds, r) := digitRunGo rest
      (c :: ds, r)
    else if c = '_' then
      match rest with
      | d :: rest2 =>
        if d.isDigit then
          let (ds, r) := digitRunGo rest2
          (d :: ds, r)
        else ([], c :: rest)
      | [] => ([], [c])
    else ([], c :: rest)

/-- A maximal digit run starting at the head of the input. Empty when the
input does not start with a digit; underscores are legal only between
digits and are dropped from the collected run. -/
def digitRun : Str → Str × Str
  | [] => ([], [])
  | c :: rest =>
    if c.isDigit then
      let (ds, r) := digitRunGo rest
      (c :: ds, r)
    else ([], c :: rest)

/-- Numeric value of a list of decimal digit characters. -/
def natOfDigits (ds : Str) : ℕ :=
  ds.foldl (fun n c => 10 * n + (c.toNat - 48)) 0

/-- The rational `m * 10 ^ e`, implemented through `mkRat` so that closed
instances reduce inside the kernel. -/
def decScaled (m : ℤ) (e : ℤ) : ℚ :=
  match e with
  | Int.ofNat k => mkRat (m * ((10 ^ k : ℕ) : ℤ)) 1
  | Int.negSucc k => mkRat m (10 ^ (k + 1))

/-- Fractional part after the integer digit run: `none` when no decimal
dot is present, otherwise the (possibly empty) digit run after the dot. -/
def parseFrac : Str → Option Str × Str
  | '.' :: r =>
    let (f, r2) := digitRun r
    (some f, r2)
  | s => (none, s)

/-- Exponent part. `some (e, rest)` when there is no exponent marker
(`e = 0`) or a well-formed exponent; `none` when an `e`/`E` marker is
present but not followed by at least one digit. -/
def parseExpPart : Str → Option (ℤ × Str)
  | [] => some (0, [])
  | c :: r =>
    if c = 'e' || c = 'E' then
      let (eneg, r2) := splitSign r
      let (ed, r3) := digitRun r2
      if ed.isEmpty then none
      else some ((if eneg then -(natOfDigits ed : ℤ) else (natOfDigits ed : ℤ)), r3)
    else some (0, c :: r)

/-- Lowercase spellings of the special float values accepted by CPython. -/
def infShortL : Str := s2l "inf"

/-- Lowercase spelling of the long infinity literal. -/
def infLongL : Str := s2l "infinity"

/-- Lowercase spelling of the NaN literal. -/
def nanL : Str := s2l "nan"

/-- Core of CPython float-literal recognition, after whitespace has been
stripped: optional sign, then a case-insensitive special spelling
(`inf`, `infinity`, `nan`) or a decimal mantissa with optional fraction
and exponent, with PEP 515 underscores between digits. The whole input
must be consumed. -/
def pyFloatCore (s : Str) : Option PyFloat :=
  let (neg, r) := splitSign s
  let low := lowerStr r
  if low = infShortL || low = infLongL then some (PyFloat.inf neg)
  else if low = nanL then some PyFloat.nan
  else
    let (ip, r1) := digitRun r
    let (fp, r2) := parseFrac r1
    let mantOk : Bool := !ip.isEmpty || !(fp.getD []).isEmpty
    match parseExpPart r2 with
    | none => none
    | some (ex, r3) =>
      if r3.isEmpty && mantOk then
        let fd := fp.getD []
        let m : ℤ := if neg then -(natOfDigits (ip ++ fd) : ℤ) else (natOfDigits (ip ++ fd) : ℤ)
        some (PyFloat.finite (decScaled m (ex - (fd.length : ℤ))))
      else none

/-- Model of CPython `float(s)` on a string argument: `none` models a
raised `ValueError`. -/
def pyFloatOfStr (s : Str) : Option PyFloat := pyFloatCore (stripWs s)

/-- Python string falsiness for a value that may also be `None`:
`not val` is true exactly for `None` and the empty string. -/
def pyFalsyS : Option Str → Bool
  | none => true
  | some s => s.isEmpty

/-- First vendor type marker stripped by `normalize_type`. -/
def hkQuantity : Str := s2l "HKQuantityTypeIdentifier"

/-- Second vendor type marker stripped by `normalize_type`. -/
def hkCategory : Str := s2l "HKCategoryTypeIdentifier"

/-- Third vendor type marker stripped by `normalize_type`. -/
def hkData : Str := s2l "HKDataType"

/-- Fourth vendor type marker stripped by `normalize_type`; it triggers
the `Workout` marker on the stripped suffix. -/
def hkWorkout : Str := s2l "HKWorkoutActivityType"

/-- The ordered marker list of `normalize_type` (all three scripts share
this list verbatim). -/
def typeMarkers : List Str := [hkQuantity, hkCategory, hkData, hkWorkout]

/-- The loop body of `normalize_type`: take the first marker that starts
the raw type, strip it, and for the workout-activity marker prepend the
literal `Workout`; with no match return the raw string unchanged. -/
def normTypeGo : List Str → Str → Str
  | [], raw => raw
  | p :: ps, raw =>
    if p.isPrefixOf raw then
      if p = hkWorkout then s2l "Workout" ++ raw.drop p.length
      else raw.drop p.length
    else normTypeGo ps raw

/-- Embedding of `normalize_type` (identical in all three scripts). -/
def normalize_type (raw_type : Str) : Str := normTypeGo typeMarkers raw_type

/-- The ordered marker list of `normalize_category_value`, most specific
first, generic `HKCategoryValue` last. -/
def catMarkers : List Str :=
  [s2l "HKCategoryValueSleepAnalysis",
   s2l "HKCategoryValueAppleStandHour",
   s2l "HKCategoryValueEnvironmentalAudioExposureEvent",
   s2l "HKCategoryValue"]

/-- The loop body of `normalize_category_value`: strip the first marker
that starts the raw value, else return it unchanged. -/
def normCatGo : List Str → Str → Str
  | [], raw => raw
  | p :: ps, raw =>
    if p.isPrefixOf raw then raw.drop p.length
    else normCatGo ps raw

/-- Embedding of `normalize_category_value` from `healthkit_to_parquet.py`
and `raw_export_audit.py`: `None` for a falsy input, otherwise the value
with the first matching marker stripped. -/
def normalize_category_value (raw_value : Str) : Option Str :=
  if raw_value.isEmpty then none
  else some (normCatGo catMarkers raw_value)

/-- Embedding of `parse_value` from `healthkit_to_parquet.py` and
`raw_export_audit.py`. The argument is the raw `value` attribute, which
may be absent. Returns the pair (numeric value, category value). -/
def parse_value (val : Option Str) : Option PyFloat × Option Str :=
  match val with
  | none => (none, none)
  | some v =>
    if v.isEmpty then (none, none)
    else
      match pyFloatOfStr v with
      | some x => (some x, none)
      | none => (none, normalize_category_value v)

/-- Embedding of `parse_float` (identical in all three scripts): `None`
for a falsy input or a failed parse, otherwise the parsed float. -/
def parse_float (val : Option Str) : Option PyFloat :=
  match val with
  | none => none
  | some v => if v.isEmpty then none else pyFloatOfStr v


/-- Model of a parsed timestamp: the six components of
`YYYY-MM-DD HH:MM:SS`. -/
structure Ts where
  year : ℕ
  month : ℕ
  day : ℕ
  hour : ℕ
  minute : ℕ
  second : ℕ
deriving DecidableEq, Repr

/-- Two decimal digit characters as a number, when both are digits. -/
def twoDigits (a b : Char) : Option ℕ :=
  if a.isDigit && b.isDigit then some ((a.toNat - 48) * 10 + (b.toNat - 48)) else none

/-- Model of `datetime.strptime(s, "%Y-%m-%d %H:%M:%S")` on a 19-character
slice: the shape and separators must match exactly and the components
must be in range (month 1-12, day 1-31, hour 0-23, minute 0-59, second
0-61, the ranges `strptime` itself enforces; the month-specific day
check done by the `datetime` constructor is elided, which no claim
depends on). `none` models a raised `ValueError`. -/
def strptime19 : Str → Option Ts
  | [y1, y2, y3, y4, '-', m1, m2, '-', d1, d2, ' ', h1, h2, ':', n1, n2, ':', s1, s2] =>
    if y1.isDigit && y2.isDigit && y3.isDigit && y4.isDigit then
      match twoDigits m1 m2, twoDigits d1 d2, twoDigits h1 h2, twoDigits n1 n2, twoDigits s1 s2 with
      | some mo, some dy, some hh, some nn, some ss =>
        if 1 ≤ mo && mo ≤ 12 && 1 ≤ dy && dy ≤ 31 && hh ≤ 23 && nn ≤ 59 && ss ≤ 61 then
          some ⟨(y1.toNat - 48) * 1000 + (y2.toNat - 48) * 100 + (y3.toNat - 48) * 10 +
                (y4.toNat - 48), mo, dy, hh, nn, ss⟩
        else none
      | _, _, _, _, _ => none
    else none
  | _ => none

/-- Embedding of `parse_timestamp` from `healthkit_duckdb.py` and
`raw_export_audit.py`: `None` for a falsy input or a format mismatch,
otherwise the timestamp parsed from the first 19 characters. -/
def parse_timestamp (ts_str : Option Str) : Option Ts :=
  match ts_str with
  | none => none
  | some s => if s.isEmpty then none else strptime19 (s.take 19)

mutual
/-- A source XML element: a tag, an attribute list (first binding wins,
as in an attribute map), and child elements. The children sit in the
companion type `XList` so that recursion over the tree is structural. -/
inductive XElem where
  | mk (tag : Str) (attrs : List (Str × Str)) (children : XList)
  deriving Repr
/-- A sequence of child elements. -/
inductive XList where
  | nil
  | cons (e : XElem) (rest : XList)
  deriving Repr
end

/-- Build an `XList` from a list of elements. -/
def xlist : List XElem → XList
  | [] => XList.nil
  | e :: r => XList.cons e (xlist r)

/-- Tag of an element. -/
def XElem.tag : XElem → Str
  | XElem.mk t _ _ => t

/-- Attribute list of an element. -/
def XElem.attrs : XElem → List (Str × Str)
  | XElem.mk _ a _ => a

/-- Child elements of an element. -/
def XElem.children : XElem → XList
  | XElem.mk _ _ c => c

/-- Model of `elem.get(name)`: the attribute value, or `None`. -/
def XElem.get (e : XElem) (name : Str) : Option Str :=
  (e.attrs.find? (fun kv => kv.1 == name)).map (fun kv => kv.2)

/-- Model of `elem.get(name, default)`. -/
def XElem.getD (e : XElem) (name : Str) (d : Str) : Str :=
  (e.get name).getD d

/-- First element of a child sequence carrying the given tag. -/
def XList.findTag : XList → Str → Option XElem
  | XList.nil, _ => none
  | XList.cons e rest, t => if e.tag == t then some e else XList.findTag rest t

/-- Model of `elem.find(tag)` from `ElementTree`: the first direct child
with the given tag. -/
def XElem.findChild (e : XElem) (t : Str) : Option XElem :=
  e.children.findTag t

/-- Model of the Python substring test `needle in hay`: the needle occurs
contiguously somewhere in the haystack. -/
def containsSeq (needle : Str) : Str → Bool
  | [] => needle.isEmpty
  | c :: rest => needle.isPrefixOf (c :: rest) || containsSeq needle rest

/-- Embedding of the workout duration computation shared by
`healthkit_duckdb.py` (lines 139-145) and `raw_export_audit.py`
(lines 183-189): when the unit contains `sec` the parsed duration is
divided by 60 when truthy and becomes `None` when falsy
(`duration_min / 60 if duration_min else None`). -/
def durationMinDk (dur : Option Str) (durUnit : Option Str) : Option PyFloat :=
  match dur with
  | none => none
  | some ds =>
    if ds.isEmpty then none
    else
      let dm := parse_float (some ds)
      let du := durUnit.getD []
      if containsSeq (s2l "sec") (lowerStr du) then
        (if pyTruthyF dm then dm.map pfDiv60 else none)
      else dm

/-- Embedding of the workout duration computation of
`healthkit_to_parquet.py` (lines 270-276): division happens only when
the parsed duration is truthy and the unit contains `sec`
(`if duration_min and "sec" in duration_unit.lower()`). -/
def durationMinPq (dur : Option Str) (durUnit : Option Str) : Option PyFloat :=
  match dur with
  | none => none
  | some ds =>
    if ds.isEmpty then none
    else
      let dm := parse_float (some ds)
      let du := durUnit.getD []
      if pyTruthyF dm && containsSeq (s2l "sec") (lowerStr du) then dm.map pfDiv60
      else dm

/-- Embedding of the workout distance computation shared verbatim by all
three scripts: parse `totalDistance`, and when truthy with a unit
containing `mi`, multiply by 1.60934. -/
def distanceKm (dist : Option Str) (distUnit : Option Str) : Option PyFloat :=
  let dk := parse_float dist
  let du := distUnit.getD []
  if pyTruthyF dk && containsSeq (s2l "mi") (lowerStr du) then dk.map pfMulMi
  else dk
/-- A GPX side file as seen by `get_gpx_start_point`: absent from the
file system, present but not parseable as XML, or parsed into a root
element. -/
inductive GpxFile where
  | missing
  | unparsable
  | doc (root : XElem)

/-- The file system visible to the GPS resolver: what lives at each path. -/
abbrev GpxFS := Str → GpxFile

mutual
/-- Model of `root.find(".//tag")` on a single node: the node itself
when its tag matches, else the first match among its descendants, in
document order. -/
def findDescE (e : XElem) (tgt : Str) : Option XElem :=
  match e with
  | XElem.mk t a cs => if t == tgt then some (XElem.mk t a cs) else findDescXs cs tgt
def findDescXs (l : XList) (tgt : Str) : Option XElem :=
  match l with
  | XList.nil => none
  | XList.cons e rest =>
    match findDescE e tgt with
    | some r => some r
    | none => findDescXs rest tgt
end

/-- The Clark-notation tag that both the namespaced path `.//gpx:trkpt`
with the `GPX_NS` map and the literal qualified path
`.//\x7bhttp://www.topografix.com/GPX/1/1\x7dtrkpt` resolve to. -/
def clarkTrkpt : Str := s2l "\x7bhttp://www.topografix.com/GPX/1/1\x7dtrkpt"

/-- The bare tag used by the final fallback lookup. -/
def bareTrkpt : Str := s2l "trkpt"

/-- Embedding of `get_gpx_start_point` from `healthkit_to_parquet.py`:
`(None, None)` when the file is missing, cannot be parsed (the local
`except` clause) or has no track point; otherwise the `lat`/`lon`
attributes of the first track point found, trying the namespaced path
first, then the fully-qualified tag, then the bare tag. -/
def get_gpx_start_point (fs : GpxFS) (gpx_path : Str) : Option PyFloat × Option PyFloat :=
  match fs gpx_path with
  | GpxFile.missing => (none, none)
  | GpxFile.unparsable => (none, none)
  | GpxFile.doc root =>
    let t1 := findDescXs root.children clarkTrkpt
    let t2 := match t1 with
      | some x => some x
      | none => findDescXs root.children clarkTrkpt
    let t3 := match t2 with
      | some x => some x
      | none => findDescXs root.children bareTrkpt
    match t3 with
    | some pt => (parse_float (pt.get (s2l "lat")), parse_float (pt.get (s2l "lon")))
    | none => (none, none)

/-- Join of `export_dir / rel_path` for a relative path with no leading
slash (as `pathlib` behaves on the shapes that occur here). -/
def joinPath (d : Str) (r : Str) : Str :=
  if r.isEmpty then d else d ++ '/' :: r

/-- Embedding of `get_workout_route_path` from `healthkit_to_parquet.py`:
find the `WorkoutRoute` child, then its `FileReference` child, take its
`path` attribute, reject a falsy path, strip leading slashes and join
with the export directory. -/
def get_workout_route_path (workout_elem : XElem) (export_dir : Str) : Option Str :=
  match workout_elem.findChild (s2l "WorkoutRoute") with
  | none => none
  | some workout_route =>
    match workout_route.findChild (s2l "FileReference") with
    | none => none
    | some file_ref =>
      match file_ref.get (s2l "path") with
      | none => none
      | some rel_path =>
        if rel_path.isEmpty then none
        else some (joinPath export_dir (rel_path.dropWhile (fun c => c == '/')))

/-- The GPS fragment of the `Workout` branch of `parse_and_load` in
`healthkit_to_parquet.py`: coordinates stay `(None, None)` unless a
route path resolves. -/
def workoutGpsPq (fs : GpxFS) (export_dir : Str) (e : XElem) : Option PyFloat × Option PyFloat :=
  match get_workout_route_path e export_dir with
  | none => (none, none)
  | some p => get_gpx_start_point fs p

/-- The resolution order stated by the specification for the first track
point: the namespaced path expression, then the fully-qualified tag
lookup, then the bare-tag lookup, first match wins. Written from the
specification text, to be compared against `get_gpx_start_point`. -/
def firstTrkptSpec (root : XElem) : Option XElem :=
  match findDescXs root.children clarkTrkpt with
  | some x => some x
  | none =>
    match findDescXs root.children clarkTrkpt with
    | some x => some x
    | none => findDescXs root.children bareTrkpt
/-- The date slice used by the parquet variant:
`elem.get(name, "")[:19] if elem.get(name) else None`. -/
def sliceDate (v : Option Str) : Option Str :=
  match v with
  | none => none
  | some s => if s.isEmpty then none else some (s.take 19)

/-- An output row of `healthkit_to_parquet.py`: one slot per column
appended by `parse_and_load`. -/
structure RowPq where
  type : Str
  value : Option PyFloat
  value_category : Option Str
  unit : Option Str
  start_date : Option Str
  end_date : Option Str
  duration_min : Option PyFloat
  distance_km : Option PyFloat
  energy_kcal : Option PyFloat
  source_name : Option Str
  start_lat : Option PyFloat
  start_lon : Option PyFloat
deriving DecidableEq, Repr

/-- Embedding of the `Record` branch of `parse_and_load` in
`healthkit_to_parquet.py` (lines 252-266): one value appended to each
column array, gathered here into a row. -/
def recordRowPq (e : XElem) : RowPq :=
  let vp := parse_value (e.get (s2l "value"))
  { type := normalize_type (e.getD (s2l "type") [])
    value := vp.1
    value_category := vp.2
    unit := e.get (s2l "unit")
    start_date := sliceDate (e.get (s2l "startDate"))
    end_date := sliceDate (e.get (s2l "endDate"))
    duration_min := none
    distance_km := none
    energy_kcal := none
    source_name := e.get (s2l "sourceName")
    start_lat := none
    start_lon := none }

/-- Embedding of the `Workout` branch of `parse_and_load` in
`healthkit_to_parquet.py` (lines 269-302). -/
def workoutRowPq (fs : GpxFS) (export_dir : Str) (e : XElem) : RowPq :=
  let gps := workoutGpsPq fs export_dir e
  { type := normalize_type (e.getD (s2l "workoutActivityType") [])
    value := none
    value_category := none
    unit := none
    start_date := sliceDate (e.get (s2l "startDate"))
    end_date := sliceDate (e.get (s2l "endDate"))
    duration_min := durationMinPq (e.get (s2l "duration")) (e.get (s2l "durationUnit"))
    distance_km := distanceKm (e.get (s2l "totalDistance")) (e.get (s2l "totalDistanceUnit"))
    energy_kcal := parse_float (e.get (s2l "totalEnergyBurned"))
    source_name := e.get (s2l "sourceName")
    start_lat := gps.1
    start_lon := gps.2 }

/-- An output row of `healthkit_duckdb.py`: the nine-tuple handed to
`executemany`. -/
structure RowDk where
  type : Str
  value : Option PyFloat
  unit : Option Str
  start_date : Option Ts
  end_date : Option Ts
  duration_min : Option PyFloat
  distance_km : Option PyFloat
  energy_kcal : Option PyFloat
  source_name : Option Str
deriving DecidableEq, Repr

/-- Embedding of the `Record` row construction of `healthkit_duckdb.py`
(lines 122-133). -/
def recordRowDk (e : XElem) : RowDk :=
  { type := normalize_type (e.getD (s2l "type") [])
    value := parse_float (e.get (s2l "value"))
    unit := e.get (s2l "unit")
    start_date := parse_timestamp (e.get (s2l "startDate"))
    end_date := parse_timestamp (e.get (s2l "endDate"))
    duration_min := none
    distance_km := none
    energy_kcal := none
    source_name := e.get (s2l "sourceName") }

/-- Embedding of the `Workout` row construction of `healthkit_duckdb.py`
(lines 137-163). -/
def workoutRowDk (e : XElem) : RowDk :=
  { type := normalize_type (e.getD (s2l "workoutActivityType") [])
    value := none
    unit := none
    start_date := parse_timestamp (e.get (s2l "startDate"))
    end_date := parse_timestamp (e.get (s2l "endDate"))
    duration_min := durationMinDk (e.get (s2l "duration")) (e.get (s2l "durationUnit"))
    distance_km := distanceKm (e.get (s2l "totalDistance")) (e.get (s2l "totalDistanceUnit"))
    energy_kcal := parse_float (e.get (s2l "totalEnergyBurned"))
    source_name := e.get (s2l "sourceName") }
/-- The mutable loop state of `parse_and_load` in `healthkit_duckdb.py`:
the pending batch, the batches already handed to the sink, and the
counters of the stats dict. -/
structure StateDk where
  batch : List RowDk
  written : List (List RowDk)
  records : ℕ
  workouts : ℕ
  errors : ℕ
deriving DecidableEq, Repr

/-- The sink collaborator of the duckdb variant as the core sees it:
whether one bulk `executemany` of the given rows succeeds. -/
abbrev SinkDk := List RowDk → Bool

/-- Embedding of `flush_batch` in `healthkit_duckdb.py`: nothing happens
on an empty batch; otherwise the whole batch goes to the sink in one
bulk write and is cleared. The boolean is false when the sink raises,
in which case the batch is left as it was (the `clear` is not reached). -/
def flush_batch (ok : SinkDk) (s : StateDk) : StateDk × Bool :=
  if s.batch.isEmpty then (s, true)
  else if ok s.batch then ({ s with written := s.written ++ [s.batch], batch := [] }, true)
  else (s, false)

/-- The mapping phase of one loop iteration in `healthkit_duckdb.py`
(lines 122-165): append a row and bump a counter when the tag is
`Record` or `Workout`, and do nothing otherwise. -/
def mapPhaseDk (s : StateDk) (e : XElem) : StateDk :=
  if e.tag = s2l "Record" then
    { s with batch := s.batch ++ [recordRowDk e], records := s.records + 1 }
  else if e.tag = s2l "Workout" then
    { s with batch := s.batch ++ [workoutRowDk e], workouts := s.workouts + 1 }
  else s

/-- The body of the `try` block of one loop iteration in
`healthkit_duckdb.py` (lines 121-174): the mapping phase, then a flush
when the batch has reached the batch size. The boolean is false exactly
when an exception escapes the body to the local handler. -/
def tryBodyDk (ok : SinkDk) (batch_size : ℕ) (s : StateDk) (e : XElem) : StateDk × Bool :=
  let s1 := mapPhaseDk s e
  if batch_size ≤ s1.batch.length then flush_batch ok s1 else (s1, true)

/-- One full loop iteration of `parse_and_load` in `healthkit_duckdb.py`:
the `try` body, with the bare `except Exception` handler incrementing
the error counter on failure. -/
def stepDk (ok : SinkDk) (batch_size : ℕ) (s : StateDk) (e : XElem) : StateDk :=
  match tryBodyDk ok batch_size s e with
  | (s1, true) => s1
  | (s1, false) => { s1 with errors := s1.errors + 1 }

/-- The initial loop state: empty batch, nothing written, zero counters. -/
def initDk : StateDk := ⟨[], [], 0, 0, 0⟩

/-- The element loop of `parse_and_load` in `healthkit_duckdb.py` over a
stream of elements. -/
def runDk (ok : SinkDk) (batch_size : ℕ) (s : StateDk) (es : List XElem) : StateDk :=
  es.foldl (stepDk ok batch_size) s

/-- A sink whose bulk writes always succeed. -/
def sinkOk : SinkDk := fun _ => true

/-- Embedding of `parse_and_load` in `healthkit_duckdb.py`: run the loop,
then flush the remaining partial batch once. A failure of that final
flush is outside every `try` block and aborts the run (`none`). -/
def parseAndLoadDk (ok : SinkDk) (batch_size : ℕ) (es : List XElem) : Option StateDk :=
  match flush_batch ok (runDk ok batch_size initDk es) with
  | (s, true) => some s
  | (_, false) => none

/-- An output row of `raw_export_audit.py`: the ten-tuple appended to
`rows`. -/
structure RowA where
  type : Str
  value : Option PyFloat
  value_category : Option Str
  unit : Option Str
  start_date : Option Ts
  end_date : Option Ts
  duration_min : Option PyFloat
  distance_km : Option PyFloat
  energy_kcal : Option PyFloat
  source_name : Option Str
deriving DecidableEq, Repr

/-- Embedding of the `Record` row construction of `raw_export_audit.py`
(lines 164-180). -/
def recordRowA (e : XElem) : RowA :=
  let vp := parse_value (e.get (s2l "value"))
  { type := normalize_type (e.getD (s2l "type") [])
    value := vp.1
    value_category := vp.2
    unit := e.get (s2l "unit")
    start_date := parse_timestamp (e.get (s2l "startDate"))
    end_date := parse_timestamp (e.get (s2l "endDate"))
    duration_min := none
    distance_km := none
    energy_kcal := none
    source_name := e.get (s2l "sourceName") }

/-- Embedding of the `Workout` row construction of `raw_export_audit.py`
(lines 182-209); its duration fragment is character-identical to the
duckdb one. -/
def workoutRowA (e : XElem) : RowA :=
  { type := normalize_type (e.getD (s2l "workoutActivityType") [])
    value := none
    value_category := none
    unit := none
    start_date := parse_timestamp (e.get (s2l "startDate"))
    end_date := parse_timestamp (e.get (s2l "endDate"))
    duration_min := durationMinDk (e.get (s2l "duration")) (e.get (s2l "durationUnit"))
    distance_km := distanceKm (e.get (s2l "totalDistance")) (e.get (s2l "totalDistanceUnit"))
    energy_kcal := parse_float (e.get (s2l "totalEnergyBurned"))
    source_name := e.get (s2l "sourceName") }

/-- The mutable loop state of `parse_and_load` in `raw_export_audit.py`:
pending rows, the chunk files already flushed, and the stats counters
(this variant counts `skipped`). -/
structure StateA where
  rows : List RowA
  chunks : List (List RowA)
  records : ℕ
  workouts : ℕ
  skipped : ℕ
  errors : ℕ
deriving DecidableEq, Repr

/-- Embedding of `flush_to_parquet` in `raw_export_audit.py`: nothing
happens with no pending rows; otherwise all pending rows are written as
one chunk and cleared. -/
def flush_to_parquet (s : StateA) : StateA :=
  if s.rows.isEmpty then s
  else { s with chunks := s.chunks ++ [s.rows], rows := [] }

/-- One loop iteration of `parse_and_load` in `raw_export_audit.py`
(lines 162-222): `Record` and `Workout` map to a row,
`ActivitySummary` and `Correlation` only bump `skipped`, then a flush
happens when the pending rows reach the batch size. -/
def stepA (batch_size : ℕ) (s : StateA) (e : XElem) : StateA :=
  let s1 :=
    if e.tag = s2l "Record" then
      { s with rows := s.rows ++ [recordRowA e], records := s.records + 1 }
    else if e.tag = s2l "Workout" then
      { s with rows := s.rows ++ [workoutRowA e], workouts := s.workouts + 1 }
    else if e.tag = s2l "ActivitySummary" ∨ e.tag = s2l "Correlation" then
      { s with skipped := s.skipped + 1 }
    else s
  if batch_size ≤ s1.rows.length then flush_to_parquet s1 else s1

/-- The initial state of the audit-variant loop. -/
def initA : StateA := ⟨[], [], 0, 0, 0, 0⟩

/-- The element loop of `parse_and_load` in `raw_export_audit.py`. -/
def runA (batch_size : ℕ) (s : StateA) (es : List XElem) : StateA :=
  es.foldl (stepA batch_size) s

/-- Embedding of `parse_and_load` in `raw_export_audit.py`: run the loop,
flush the remaining rows once, and return the final state (the chunk
merge at the end only concatenates the already-written chunks). -/
def parseAndLoadA (batch_size : ℕ) (es : List XElem) : StateA :=
  flush_to_parquet (runA batch_size initA es)
/-- One line of the final human-readable summary, abstracted to its
content. -/
inductive OutLine where
  | done
  | records (n : ℕ)
  | workouts (n : ℕ)
  | workoutsGps (n g : ℕ)
  | skipped (n : ℕ)
  | errors (n : ℕ)
  | fileSize
  | queryHint
deriving DecidableEq, Repr

/-- The stats dict returned by the parquet variant. -/
structure StatsPq where
  records : ℕ
  workouts : ℕ
  workouts_with_gps : ℕ
  skipped : ℕ
  errors : ℕ
deriving DecidableEq, Repr

/-- The stats dict returned by the duckdb variant (it has no skipped
counter). -/
structure StatsDk where
  records : ℕ
  workouts : ℕ
  errors : ℕ
deriving DecidableEq, Repr

/-- The stats dict returned by the audit variant. -/
structure StatsA where
  records : ℕ
  workouts : ℕ
  skipped : ℕ
  errors : ℕ
deriving DecidableEq, Repr

/-- The summary block printed by `main` in `healthkit_to_parquet.py`
(lines 371-379): the errors line appears only under
`if stats["errors"]:`. -/
def summaryLinesPq (st : StatsPq) : List OutLine :=
  [OutLine.done, OutLine.records st.records, OutLine.workoutsGps st.workouts st.workouts_with_gps,
   OutLine.skipped st.skipped]
  ++ (if st.errors ≠ 0 then [OutLine.errors st.errors] else [])
  ++ [OutLine.fileSize]

/-- The summary block printed by `main` in `healthkit_duckdb.py`
(lines 229-233): the errors line appears only under
`if stats["errors"]:`. -/
def summaryLinesDk (st : StatsDk) : List OutLine :=
  [OutLine.done, OutLine.records st.records, OutLine.workouts st.workouts]
  ++ (if st.errors ≠ 0 then [OutLine.errors st.errors] else [])

/-- The summary block printed by `main` in `raw_export_audit.py`
(lines 295-307): the errors line appears only under
`if stats["errors"]:`. -/
def summaryLinesA (st : StatsA) : List OutLine :=
  [OutLine.done, OutLine.records st.records, OutLine.workouts st.workouts,
   OutLine.skipped st.skipped]
  ++ (if st.errors ≠ 0 then [OutLine.errors st.errors] else [])
  ++ [OutLine.fileSize, OutLine.queryHint]

/-- Whether a summary block surfaces an error count. -/
def hasErrorsLine (ls : List OutLine) : Bool :=
  ls.any (fun l =>
    match l with
    | OutLine.errors _ => true
    | _ => false)
/-- A concrete track point used by the GPS-resolver witness. -/
def trkptEx : XElem :=
  XElem.mk clarkTrkpt [(s2l "lat", s2l "37.5"), (s2l "lon", s2l "-122.25")] XList.nil

/-- A concrete GPX document with the track point nested at the usual
`trk/trkseg` depth. -/
def gpxDocEx : XElem :=
  XElem.mk (s2l "gpx") []
    (xlist [XElem.mk (s2l "trk") []
      (xlist [XElem.mk (s2l "trkseg") [] (xlist [trkptEx])])])

/-- A one-file file system for the GPS-resolver witness. -/
def fsEx : GpxFS := fun p =>
  if p = s2l "d/workout-routes/r1.gpx" then GpxFile.doc gpxDocEx else GpxFile.missing

/-- A concrete `Record` element used by loop witnesses. -/
def recElemEx : XElem :=
  XElem.mk (s2l "Record")
    [(s2l "type", s2l "HKQuantityTypeIdentifierHeartRate"), (s2l "value", s2l "72"),
     (s2l "unit", s2l "count/min")] XList.nil

/-- A sink whose bulk writes always raise. -/
def sinkFail : SinkDk := fun _ => false

/-- A concrete `ActivitySummary` element. -/
def asElemEx : XElem := XElem.mk (s2l "ActivitySummary") [] XList.nil

/-- The `mkRat` implementation of division agrees with field division. -/
theorem qDivNat_eq_div (a : ℚ) (n : ℕ) : qDivNat a n = a / (n : ℚ) := by
  rw [qDivNat, Rat.mkRat_eq_div]
  push_cast
  rw [div_mul_eq_div_div, Rat.num_div_den]

/-- The `mkRat` implementation of constant multiplication agrees with
field multiplication. -/
theorem qMulC_eq_mul (a : ℚ) (cn : ℤ) (cd : ℕ) : qMulC a cn cd = a * mkRat cn cd := by
  rw [qMulC, Rat.mkRat_eq_div, Rat.mkRat_eq_div]
  push_cast
  conv_rhs => rw [← Rat.num_div_den a]
  rw [div_mul_div_comm]

/-- The `mkRat` implementation of decimal scaling agrees with the usual
`m * 10 ^ e` over the rationals. -/
theorem decScaled_eq (m e_ : ℤ) : decScaled m e_ = (m : ℚ) * (10 : ℚ) ^ e_ := by
  match e_ with
  | Int.ofNat k =>
    rw [decScaled, Rat.mkRat_eq_div]
    push_cast
    rw [div_one, Int.ofNat_eq_natCast, zpow_natCast]
  | Int.negSucc k =>
    rw [decScaled, Rat.mkRat_eq_div, zpow_negSucc]
    push_cast
    rw [div_eq_mul_inv]

/-- The empty string does not parse as a float. -/
theorem pyFloatOfStr_nil : pyFloatOfStr [] = none := rfl

/-- When the raw value parses as a float, `parse_value` returns it as the
numeric component and leaves the category absent. -/
theorem parse_value_of_parses (v : Str) (x : PyFloat) (h : pyFloatOfStr v = some x) :
    parse_value (some v) = (some x, none) := by
  have hv : v.isEmpty = false := by
    cases v with
    | nil => exact Option.noConfusion (show (none : Option PyFloat) = some x from h)
    | cons a l => rfl
  simp [parse_value, hv, h]

/-- When the raw value is non-empty and does not parse as a float,
`parse_value` returns the normalized category value. -/
theorem parse_value_of_category (v : Str) (hv : v ≠ []) (h : pyFloatOfStr v = none) :
    parse_value (some v) = (none, normalize_category_value v) := by
  have hv2 : v.isEmpty = false := by
    cases v with
    | nil => exact absurd rfl hv
    | cons a l => rfl
  simp [parse_value, hv2, h]

/-- C1: for every value-attribute string V, `parse_value` returns
`(float(V), None)` when V parses as a float, `(None,
normalize_category_value(V))` when V is non-empty and does not parse,
and `(None, None)` when V is empty or absent; in every case at most one
component of the pair is non-absent. -/
theorem c1_parse_value_disambiguation (v : Str) :
    (∀ x, pyFloatOfStr v = some x → parse_value (some v) = (some x, none))
    ∧ (v ≠ [] → pyFloatOfStr v = none →
        parse_value (some v) = (none, normalize_category_value v))
    ∧ parse_value (some []) = (none, none)
    ∧ parse_value none = (none, none)
    ∧ ((parse_value (some v)).1 = none ∨ (parse_value (some v)).2 = none) := by
  refine ⟨fun x h => parse_value_of_parses v x h,
          fun hv h => parse_value_of_category v hv h, rfl, rfl, ?_⟩
  cases v with
  | nil => simp [parse_value]
  | cons a l =>
    cases hp : pyFloatOfStr (a :: l) with
    | none => simp [parse_value, hp]
    | some x => simp [parse_value, hp]

/-- Witness for C1 at the concrete input `nan`. -/
theorem c1_witness : parse_value (some (s2l "nan")) = (some PyFloat.nan, none) :=
  (c1_parse_value_disambiguation (s2l "nan")).1 PyFloat.nan rfl

/-- C10: every string the float parser accepts is classified as numeric
by `parse_value` (category stays absent), including the special
spellings `nan`, `inf`, `Infinity` in any letter case and numeric
strings padded with whitespace. -/
theorem c10_float_grammar_classification :
    (∀ v x, pyFloatOfStr v = some x → parse_value (some v) = (some x, none))
    ∧ pyFloatOfStr (s2l "nan") = some PyFloat.nan
    ∧ pyFloatOfStr (s2l "NaN") = some PyFloat.nan
    ∧ pyFloatOfStr (s2l "inf") = some (PyFloat.inf false)
    ∧ pyFloatOfStr (s2l "INF") = some (PyFloat.inf false)
    ∧ pyFloatOfStr (s2l "Infinity") = some (PyFloat.inf false)
    ∧ pyFloatOfStr (s2l "INFINITY") = some (PyFloat.inf false)
    ∧ pyFloatOfStr (s2l " 72 ") = some (PyFloat.finite 72)
    ∧ parse_value (some (s2l " 72 ")) = (some (PyFloat.finite 72), none)
    ∧ parse_value (some (s2l "nan")) = (some PyFloat.nan, none)
    ∧ parse_value (some (s2l "Infinity")) = (some (PyFloat.inf false), none) :=
  ⟨fun v x h => parse_value_of_parses v x h,
   rfl, rfl, rfl, rfl, rfl, rfl, rfl, rfl, rfl, rfl⟩

/-- Witness for C10 at the concrete input `inf`. -/
theorem c10_witness : parse_value (some (s2l "inf")) = (some (PyFloat.inf false), none) :=
  c10_float_grammar_classification.1 (s2l "inf") (PyFloat.inf false) rfl

/-- A list is a `isPrefixOf`-witness of itself followed by anything. -/
theorem isPrefixOf_append_self (p S : Str) : p.isPrefixOf (p ++ S) = true := by
  rw [List.isPrefixOf_iff_prefix]
  exact List.prefix_append p S

/-- Two prefix-incomparable lists stay non-prefixes after extending the
second with any suffix: a prefix of `q ++ S` is comparable with `q`. -/
theorem isPrefixOf_append_false (p q S : Str) (h1 : ¬ p <+: q) (h2 : ¬ q <+: p) :
    p.isPrefixOf (q ++ S) = false := by
  cases hP : p.isPrefixOf (q ++ S) with
  | false => rfl
  | true =>
    rw [List.isPrefixOf_iff_prefix] at hP
    rcases List.prefix_or_prefix_of_prefix hP (List.prefix_append q S) with h | h
    · exact absurd h h1
    · exact absurd h h2

/-- A non-prefix gives a false `isPrefixOf`. -/
theorem isPrefixOf_eq_false_of_not (p r : Str) (h : ¬ p <+: r) : p.isPrefixOf r = false := by
  cases hP : p.isPrefixOf r with
  | false => rfl
  | true => exact absurd (List.isPrefixOf_iff_prefix.mp hP) h

/-- C2: for each marker P of the fixed ordered list, `normalize_type`
maps `P ++ S` to `S` (to `Workout ++ S` for the workout-activity
marker) for every suffix S, and leaves every string starting with none
of the four markers unchanged. -/
theorem c2_normalize_type (S : Str) :
    normalize_type (hkQuantity ++ S) = S
    ∧ normalize_type (hkCategory ++ S) = S
    ∧ normalize_type (hkData ++ S) = S
    ∧ normalize_type (hkWorkout ++ S) = s2l "Workout" ++ S
    ∧ (∀ raw : Str, ¬ hkQuantity <+: raw → ¬ hkCategory <+: raw → ¬ hkData <+: raw →
        ¬ hkWorkout <+: raw → normalize_type raw = raw) := by
  refine ⟨?_, ?_, ?_, ?_, ?_⟩
  · have h1 : hkQuantity.isPrefixOf (hkQuantity ++ S) = true := isPrefixOf_append_self _ _
    have h2 : hkQuantity ≠ hkWorkout := by decide
    simp [normalize_type, typeMarkers, normTypeGo, h1, h2, List.drop_left]
  · have h1 : hkQuantity.isPrefixOf (hkCategory ++ S) = false :=
      isPrefixOf_append_false _ _ _ (by decide) (by decide)
    have h2 : hkCategory.isPrefixOf (hkCategory ++ S) = true := isPrefixOf_append_self _ _
    have h3 : hkCategory ≠ hkWorkout := by decide
    simp [normalize_type, typeMarkers, normTypeGo, h1, h2, h3, List.drop_left]
  · have h1 : hkQuantity.isPrefixOf (hkData ++ S) = false :=
      isPrefixOf_append_false _ _ _ (by decide) (by decide)
    have h2 : hkCategory.isPrefixOf (hkData ++ S) = false :=
      isPrefixOf_append_false _ _ _ (by decide) (by decide)
    have h3 : hkData.isPrefixOf (hkData ++ S) = true := isPrefixOf_append_self _ _
    have h4 : hkData ≠ hkWorkout := by decide
    simp [normalize_type, typeMarkers, normTypeGo, h1, h2, h3, h4, List.drop_left]
  · have h1 : hkQuantity.isPrefixOf (hkWorkout ++ S) = false :=
      isPrefixOf_append_false _ _ _ (by decide) (by decide)
    have h2 : hkCategory.isPrefixOf (hkWorkout ++ S) = false :=
      isPrefixOf_append_false _ _ _ (by decide) (by decide)
    have h3 : hkData.isPrefixOf (hkWorkout ++ S) = false :=
      isPrefixOf_append_false _ _ _ (by decide) (by decide)
    have h4 : hkWorkout.isPrefixOf (hkWorkout ++ S) = true := isPrefixOf_append_self _ _
    simp [normalize_type, typeMarkers, normTypeGo, h1, h2, h3, h4, List.drop_left]
  · intro raw g1 g2 g3 g4
    have e1 := isPrefixOf_eq_false_of_not _ _ g1
    have e2 := isPrefixOf_eq_false_of_not _ _ g2
    have e3 := isPrefixOf_eq_false_of_not _ _ g3
    have e4 := isPrefixOf_eq_false_of_not _ _ g4
    simp [normalize_type, typeMarkers, normTypeGo, e1, e2, e3, e4]

/-- Witness for C2: a stripped quantity type, a workout type, and an
unrecognized type passed through unchanged. -/
theorem c2_witness :
    normalize_type (hkQuantity ++ s2l "HeartRate") = s2l "HeartRate"
    ∧ normalize_type (hkWorkout ++ s2l "Running") = s2l "Workout" ++ s2l "Running"
    ∧ normalize_type (s2l "BloodGlucoseCustom") = s2l "BloodGlucoseCustom" := by
  refine ⟨(c2_normalize_type (s2l "HeartRate")).1,
          (c2_normalize_type (s2l "Running")).2.2.2.1, ?_⟩
  exact (c2_normalize_type []).2.2.2.2 (s2l "BloodGlucoseCustom")
    (by decide) (by decide) (by decide) (by decide)

/-- A string that parses as a float is non-empty. -/
theorem isEmpty_false_of_parses (d : Str) (x : PyFloat) (h : pyFloatOfStr d = some x) :
    d.isEmpty = false := by
  cases d with
  | nil => exact Option.noConfusion (show (none : Option PyFloat) = some x from h)
  | cons a l => rfl

/-- Dividing the float zero by 60 gives zero again. -/
theorem pfDiv60_zero : pfDiv60 (PyFloat.finite 0) = PyFloat.finite 0 := by decide

/-- A falsy parsed float is the finite zero. -/
theorem eq_zero_of_not_truthy (x : PyFloat) (h : pyTruthyF (some x) = false) :
    x = PyFloat.finite 0 := by
  cases x with
  | finite q =>
    have : q = 0 := by
      by_contra hq
      simp [pyTruthyF, hq] at h
    rw [this]
  | inf b => simp [pyTruthyF] at h
  | nan => simp [pyTruthyF] at h

/-- C4 (amended): for a duration attribute parsing to D, the parquet
variant yields `D / 60` whenever the unit contains `sec` and `D`
otherwise; the duckdb and audit variants yield `D / 60` for a truthy D
with a `sec` unit but absent for `D = 0` with a `sec` unit, and `D`
for any other unit; an absent duration yields an absent result in all
variants. -/
theorem c4_duration_amended (d u : Str) (x : PyFloat) (hx : pyFloatOfStr d = some x) :
    (containsSeq (s2l "sec") (lowerStr u) = true →
        durationMinPq (some d) (some u) = some (pfDiv60 x)
        ∧ (pyTruthyF (some x) = true → durationMinDk (some d) (some u) = some (pfDiv60 x))
        ∧ (pyTruthyF (some x) = false → durationMinDk (some d) (some u) = none))
    ∧ (containsSeq (s2l "sec") (lowerStr u) = false →
        durationMinPq (some d) (some u) = some x
        ∧ durationMinDk (some d) (some u) = some x)
    ∧ (∀ uu : Option Str, durationMinPq none uu = none ∧ durationMinDk none uu = none) := by
  have hd : d.isEmpty = false := isEmpty_false_of_parses d x hx
  have hpf : parse_float (some d) = some x := by simp [parse_float, hd, hx]
  refine ⟨?_, ?_, fun uu => ⟨rfl, rfl⟩⟩
  · intro hs
    refine ⟨?_, ?_, ?_⟩
    · cases ht : pyTruthyF (some x) with
      | true => simp [durationMinPq, hd, hpf, hs, ht]
      | false =>
        have hx0 : x = PyFloat.finite 0 := eq_zero_of_not_truthy x ht
        subst hx0
        simp [durationMinPq, hd, hpf, hs, ht, pfDiv60_zero]
    · intro ht
      simp [durationMinDk, hd, hpf, hs, ht]
    · intro ht
      simp [durationMinDk, hd, hpf, hs, ht]
  · intro hs
    constructor
    · simp [durationMinPq, hd, hpf, hs]
    · simp [durationMinDk, hd, hpf, hs]

/-- Witness for C4 (amended): a 120-second duration becomes 2 minutes in
the parquet variant; a 45-minute duration passes through in the duckdb
variant. -/
theorem c4_witness :
    durationMinPq (some (s2l "120")) (some (s2l "SEC")) = some (pfDiv60 (PyFloat.finite 120))
    ∧ durationMinDk (some (s2l "45")) (some (s2l "min")) = some (PyFloat.finite 45) := by
  have h1 := c4_duration_amended (s2l "120") (s2l "SEC") (PyFloat.finite 120) (by decide)
  have h2 := c4_duration_amended (s2l "45") (s2l "min") (PyFloat.finite 45) (by decide)
  exact ⟨(h1.1 (by decide)).1, (h2.2.1 (by decide)).2⟩

/-- C4 counterexample: in the duckdb and audit variants a duration of
`0` with a unit containing `sec` yields an absent duration, although
the claim demands `0 / 60`, which is not absent. -/
theorem c4_counterexample :
    pyFloatOfStr (s2l "0") = some (PyFloat.finite 0)
    ∧ durationMinDk (some (s2l "0")) (some (s2l "sec")) = none
    ∧ some (pfDiv60 (PyFloat.finite 0)) ≠ (none : Option PyFloat) := by decide

/-- At most one component of a `parse_value` result is non-absent. -/
theorem parse_value_at_most_one (val : Option Str) :
    (parse_value val).1 = none ∨ (parse_value val).2 = none := by
  cases val with
  | none => simp [parse_value]
  | some v =>
    cases hv : v.isEmpty with
    | true => simp [parse_value, hv]
    | false => cases hp : pyFloatOfStr v <;> simp [parse_value, hv, hp]

/-- Both components of a `parse_value` result are absent exactly when
the raw value is absent or the empty string. -/
theorem parse_value_both_none (val : Option Str) :
    ((parse_value val).1 = none ∧ (parse_value val).2 = none) ↔ pyFalsyS val = true := by
  cases val with
  | none => simp [parse_value, pyFalsyS]
  | some v =>
    cases hv : v.isEmpty with
    | true => simp [parse_value, pyFalsyS, hv]
    | false =>
      cases hp : pyFloatOfStr v with
      | some x => simp [parse_value, pyFalsyS, hv, hp]
      | none =>
        have hc : normalize_category_value v = some (normCatGo catMarkers v) := by
          simp [normalize_category_value, hv]
        simp [parse_value, pyFalsyS, hv, hp, hc]

/-- C3 (amended): a `Record` row populates at most one of
`value`/`value_category` (both absent exactly when the raw value
attribute is absent or empty) and leaves `duration_min`, `distance_km`,
`energy_kcal` and the GPS fields absent; a `Workout` row leaves `value`
and `value_category` absent; and the `type` field is exactly
`normalize_type` of the raw type attribute, which can be the empty
string (for example when the attribute is absent). -/
theorem c3_row_shape_amended (fs : GpxFS) (export_dir : Str) (e : XElem) :
    ((recordRowPq e).value = none ∨ (recordRowPq e).value_category = none)
    ∧ (((recordRowPq e).value = none ∧ (recordRowPq e).value_category = none)
        ↔ pyFalsyS (e.get (s2l "value")) = true)
    ∧ (recordRowPq e).duration_min = none
    ∧ (recordRowPq e).distance_km = none
    ∧ (recordRowPq e).energy_kcal = none
    ∧ (recordRowPq e).start_lat = none
    ∧ (recordRowPq e).start_lon = none
    ∧ (workoutRowPq fs export_dir e).value = none
    ∧ (workoutRowPq fs export_dir e).value_category = none
    ∧ (recordRowPq e).type = normalize_type (e.getD (s2l "type") [])
    ∧ (workoutRowPq fs export_dir e).type
        = normalize_type (e.getD (s2l "workoutActivityType") []) :=
  ⟨parse_value_at_most_one (e.get (s2l "value")),
   parse_value_both_none (e.get (s2l "value")),
   rfl, rfl, rfl, rfl, rfl, rfl, rfl, rfl, rfl⟩

/-- C3 counterexample: a `Record` element with no attributes at all is
mapped successfully (the row is appended and `records` increments, no
error is counted), yet the type field of that row is the empty string. -/
theorem c3_counterexample :
    (recordRowDk (XElem.mk (s2l "Record") [] XList.nil)).type = []
    ∧ stepDk sinkOk 50000 initDk (XElem.mk (s2l "Record") [] XList.nil)
      = { initDk with batch := [recordRowDk (XElem.mk (s2l "Record") [] XList.nil)],
                      records := 1 } :=
  ⟨rfl, rfl⟩

/-- C7: the GPS route resolver returns an absent pair in each of the four
failure cases (no route reference, missing file, unparsable file, no
track point under any lookup), and otherwise resolves the first track
point by the namespaced lookup, the fully-qualified lookup, then the
bare-tag lookup, in that order. -/
theorem c7_gps_resolver :
    (∀ fs export_dir e, get_workout_route_path e export_dir = none →
        workoutGpsPq fs export_dir e = (none, none))
    ∧ (∀ fs p, fs p = GpxFile.missing → get_gpx_start_point fs p = (none, none))
    ∧ (∀ fs p, fs p = GpxFile.unparsable → get_gpx_start_point fs p = (none, none))
    ∧ (∀ fs p root, fs p = GpxFile.doc root → firstTrkptSpec root = none →
        get_gpx_start_point fs p = (none, none))
    ∧ (∀ fs p root pt, fs p = GpxFile.doc root → firstTrkptSpec root = some pt →
        get_gpx_start_point fs p
          = (parse_float (pt.get (s2l "lat")), parse_float (pt.get (s2l "lon")))) := by
  refine ⟨?_, ?_, ?_, ?_, ?_⟩
  · intro fs export_dir e h
    simp [workoutGpsPq, h]
  · intro fs p h
    simp [get_gpx_start_point, h]
  · intro fs p h
    simp [get_gpx_start_point, h]
  · intro fs p root h hT
    rcases h1 : findDescXs root.children clarkTrkpt with _ | x
    · rcases h2 : findDescXs root.children bareTrkpt with _ | y
      · simp [get_gpx_start_point, h, h1, h2]
      · simp [firstTrkptSpec, h1, h2] at hT
    · simp [firstTrkptSpec, h1] at hT
  · intro fs p root pt h hT
    rcases h1 : findDescXs root.children clarkTrkpt with _ | x
    · rcases h2 : findDescXs root.children bareTrkpt with _ | y
      · simp [firstTrkptSpec, h1, h2] at hT
      · simp [firstTrkptSpec, h1, h2] at hT
        simp [get_gpx_start_point, h, h1, h2, hT]
    · simp [firstTrkptSpec, h1] at hT
      simp [get_gpx_start_point, h, h1, hT]

/-- Witness for C7: a document with a namespaced track point nested at
the usual depth resolves to its coordinates. -/
theorem c7_witness :
    get_gpx_start_point fsEx (s2l "d/workout-routes/r1.gpx")
      = (some (PyFloat.finite (mkRat 375 10)), some (PyFloat.finite (mkRat (-12225) 100))) := by
  have h := c7_gps_resolver.2.2.2.2 fsEx (s2l "d/workout-routes/r1.gpx") gpxDocEx trkptEx rfl rfl
  rw [h]
  rfl

/-- Flushing never touches the error counter. -/
theorem flush_batch_errors (ok : SinkDk) (s : StateDk) :
    ((flush_batch ok s).1).errors = s.errors := by
  unfold flush_batch
  split_ifs <;> rfl

/-- A failed flush leaves the state exactly as it was. -/
theorem flush_batch_fail (ok : SinkDk) (s : StateDk) (h : (flush_batch ok s).2 = false) :
    (flush_batch ok s).1 = s := by
  unfold flush_batch at h ⊢
  split_ifs at h ⊢
  all_goals simp_all

/-- The mapping phase never touches the error counter. -/
theorem mapPhaseDk_errors (s : StateDk) (e : XElem) : (mapPhaseDk s e).errors = s.errors := by
  unfold mapPhaseDk
  split_ifs <;> rfl

/-- The mapping phase never touches the written batches. -/
theorem mapPhaseDk_written (s : StateDk) (e : XElem) : (mapPhaseDk s e).written = s.written := by
  unfold mapPhaseDk
  split_ifs <;> rfl

/-- The `try` body keeps the error counter, and when it signals an
exception nothing new has been written to the sink. -/
theorem tryBodyDk_spec (ok : SinkDk) (bs : ℕ) (s : StateDk) (e : XElem) :
    (tryBodyDk ok bs s e).1.errors = s.errors
    ∧ ((tryBodyDk ok bs s e).2 = false → (tryBodyDk ok bs s e).1.written = s.written) := by
  have hbody : tryBodyDk ok bs s e =
      if bs ≤ (mapPhaseDk s e).batch.length then flush_batch ok (mapPhaseDk s e)
      else (mapPhaseDk s e, true) := rfl
  rw [hbody]
  by_cases hle : bs ≤ (mapPhaseDk s e).batch.length
  · rw [if_pos hle]
    refine ⟨?_, fun h => ?_⟩
    · rw [flush_batch_errors, mapPhaseDk_errors]
    · rw [flush_batch_fail ok _ h, mapPhaseDk_written]
  · rw [if_neg hle]
    exact ⟨mapPhaseDk_errors s e, fun h => Bool.noConfusion h⟩

/-- C5: an exception escaping the `try` body of one element is caught by
the local handler: the step yields the handler state with the error
counter incremented by exactly one, nothing has been written to the
sink during that iteration, and the loop continues with the remaining
elements. -/
theorem c5_exception_isolation (ok : SinkDk) (bs : ℕ) (s : StateDk) (e : XElem)
    (es : List XElem) (s1 : StateDk) (h : tryBodyDk ok bs s e = (s1, false)) :
    stepDk ok bs s e = { s1 with errors := s1.errors + 1 }
    ∧ (stepDk ok bs s e).errors = s.errors + 1
    ∧ (stepDk ok bs s e).written = s.written
    ∧ runDk ok bs s (e :: es) = runDk ok bs (stepDk ok bs s e) es := by
  have hstep : stepDk ok bs s e = { s1 with errors := s1.errors + 1 } := by
    simp [stepDk, h]
  have herr := (tryBodyDk_spec ok bs s e).1
  have hwr := (tryBodyDk_spec ok bs s e).2
  rw [h] at herr hwr
  have herr2 : s1.errors = s.errors := herr
  have hwr2 : s1.written = s.written := hwr rfl
  refine ⟨hstep, ?_, ?_, rfl⟩
  · rw [hstep]
    simp [herr2]
  · rw [hstep]
    simp [hwr2]

/-- Witness for C5: with a batch size of 1 and a sink that rejects every
write, processing one concrete record leaves the written batches empty
and counts exactly one error. -/
theorem c5_witness :
    (stepDk sinkFail 1 initDk recElemEx).errors = initDk.errors + 1
    ∧ (stepDk sinkFail 1 initDk recElemEx).written = initDk.written := by
  have h := c5_exception_isolation sinkFail 1 initDk recElemEx []
    ⟨[recordRowDk recElemEx], [], 1, 0, 0⟩ rfl
  exact ⟨h.2.1, h.2.2.1⟩

/-- With a succeeding sink, every flush reports success. -/
theorem flush_batch_ok_snd (s : StateDk) : (flush_batch sinkOk s).2 = true := by
  unfold flush_batch
  split_ifs with h1 h2
  · rfl
  · rfl
  · exact absurd rfl h2

/-- With a succeeding sink, the batch is empty immediately after every
flush. -/
theorem flush_batch_ok_batch (s : StateDk) : ((flush_batch sinkOk s).1).batch = [] := by
  unfold flush_batch
  split_ifs with h1 h2
  · exact List.isEmpty_iff.mp h1
  · rfl
  · exact absurd rfl h2

/-- The mapping phase grows the batch by at most one row. -/
theorem mapPhaseDk_batch_le (s : StateDk) (e : XElem) :
    (mapPhaseDk s e).batch.length ≤ s.batch.length + 1 := by
  unfold mapPhaseDk
  split_ifs <;> simp

/-- One loop step keeps the batch strictly below the batch size when the
sink succeeds. -/
theorem stepDk_batch_lt (bs : ℕ) (hbs : 1 ≤ bs) (s : StateDk) (e : XElem)
    (h : s.batch.length < bs) : (stepDk sinkOk bs s e).batch.length < bs := by
  have hbody : tryBodyDk sinkOk bs s e =
      if bs ≤ (mapPhaseDk s e).batch.length then flush_batch sinkOk (mapPhaseDk s e)
      else (mapPhaseDk s e, true) := rfl
  by_cases hle : bs ≤ (mapPhaseDk s e).batch.length
  · have hstep : stepDk sinkOk bs s e = (flush_batch sinkOk (mapPhaseDk s e)).1 := by
      unfold stepDk
      rw [hbody, if_pos hle]
      rcases hfx : flush_batch sinkOk (mapPhaseDk s e) with ⟨a, b⟩
      have hb : b = true := by
        have := flush_batch_ok_snd (mapPhaseDk s e)
        rw [hfx] at this
        exact this
      rw [hb]
    rw [hstep, flush_batch_ok_batch]
    simpa using hbs
  · have hstep : stepDk sinkOk bs s e = mapPhaseDk s e := by
      unfold stepDk
      rw [hbody, if_neg hle]
    rw [hstep]
    omega

/-- The whole loop keeps the batch strictly below the batch size when
the sink succeeds. -/
theorem runDk_batch_lt (bs : ℕ) (hbs : 1 ≤ bs) (es : List XElem) (s : StateDk)
    (h : s.batch.length < bs) : (runDk sinkOk bs s es).batch.length < bs := by
  induction es generalizing s with
  | nil => exact h
  | cons e rest ih => exact ih (stepDk sinkOk bs s e) (stepDk_batch_lt bs hbs s e h)

/-- C6: with a succeeding sink and a positive batch size, the pending
batch never holds more than `batch_size` rows at the start of a loop
iteration; a flush writes the whole batch as one bulk operation and
leaves the batch empty, and is a no-op on an empty batch; and the run
ends with exactly one final flush of the remaining partial batch. -/
theorem c6_batch_writer (bs : ℕ) (hbs : 1 ≤ bs) :
    (∀ es, (runDk sinkOk bs initDk es).batch.length ≤ bs)
    ∧ (∀ s : StateDk, ((flush_batch sinkOk s).1).batch = [])
    ∧ (∀ s : StateDk, s.batch = [] → flush_batch sinkOk s = (s, true))
    ∧ (∀ s : StateDk, s.batch ≠ [] →
        (flush_batch sinkOk s).1.written = s.written ++ [s.batch])
    ∧ (∀ es, parseAndLoadDk sinkOk bs es
        = some ((flush_batch sinkOk (runDk sinkOk bs initDk es)).1)) := by
  refine ⟨?_, flush_batch_ok_batch, ?_, ?_, ?_⟩
  · intro es
    have h0 : (initDk.batch).length < bs := by
      simpa [initDk] using hbs
    exact le_of_lt (runDk_batch_lt bs hbs es initDk h0)
  · intro s hnil
    unfold flush_batch
    rw [if_pos (List.isEmpty_iff.mpr hnil)]
  · intro s h
    unfold flush_batch
    rw [if_neg (by simpa [List.isEmpty_iff] using h)]
    rfl
  · intro es
    unfold parseAndLoadDk
    rcases hfx : flush_batch sinkOk (runDk sinkOk bs initDk es) with ⟨a, b⟩
    have hb : b = true := by
      have := flush_batch_ok_snd (runDk sinkOk bs initDk es)
      rw [hfx] at this
      exact this
    rw [hb]

/-- Witness for C6 at batch size 2 on one concrete record. -/
theorem c6_witness :
    (runDk sinkOk 2 initDk [recElemEx]).batch.length ≤ 2
    ∧ parseAndLoadDk sinkOk 2 [recElemEx]
      = some ((flush_batch sinkOk (runDk sinkOk 2 initDk [recElemEx])).1) := by
  have h := c6_batch_writer 2 (by decide)
  exact ⟨h.1 [recElemEx], h.2.2.2.2 [recElemEx]⟩

/-- The final flush of the audit variant never changes the skip counter. -/
theorem flush_to_parquet_skipped (s : StateA) : (flush_to_parquet s).skipped = s.skipped := by
  unfold flush_to_parquet
  split_ifs <;> rfl

/-- C8 (amended): in the audit (and parquet) variants an
`ActivitySummary` or `Correlation` element produces no row and bumps the
`skipped` counter by exactly one, and that counter survives the final
flush into the returned statistics; the duckdb variant produces no row
for such elements either, but keeps no `skipped` counter at all. -/
theorem c8_skipped_amended (bs : ℕ) (s : StateA) (e : XElem)
    (htag : e.tag = s2l "ActivitySummary" ∨ e.tag = s2l "Correlation")
    (hlen : s.rows.length < bs) :
    stepA bs s e = { s with skipped := s.skipped + 1 }
    ∧ (∀ es, (parseAndLoadA bs es).skipped = (runA bs initA es).skipped) := by
  have hR : ¬ e.tag = s2l "Record" := by
    rcases htag with h | h <;> rw [h] <;> decide
  have hW : ¬ e.tag = s2l "Workout" := by
    rcases htag with h | h <;> rw [h] <;> decide
  refine ⟨?_, fun es => flush_to_parquet_skipped (runA bs initA es)⟩
  unfold stepA
  rw [if_neg hR, if_neg hW, if_pos htag]
  rw [if_neg (show ¬ bs ≤ ({ s with skipped := s.skipped + 1 } : StateA).rows.length from
    not_le.mpr hlen)]

/-- Witness for C8 (amended): one concrete `ActivitySummary` element
bumps only the skip counter. -/
theorem c8_witness :
    stepA 100000 initA asElemEx = { initA with skipped := 1 } :=
  (c8_skipped_amended 100000 initA asElemEx (Or.inl rfl) (by decide)).1

/-- C8 counterexample: the duckdb pipeline leaves its whole state (and
so each of the counters its statistics really contain) unchanged on an
`ActivitySummary` element; it maintains no skipped counter to
increment, so the returned statistics carry no skipped count. -/
theorem c8_counterexample :
    stepDk sinkOk 50000 initDk asElemEx = initDk
    ∧ runDk sinkOk 50000 initDk [asElemEx] = initDk :=
  ⟨rfl, rfl⟩

/-- C9 (amended): in all three variants the final summary contains an
errors line exactly when the error count is nonzero; a zero count is
not surfaced. -/
theorem c9_errors_line_amended (stPq : StatsPq) (stDk : StatsDk) (stA : StatsA) :
    hasErrorsLine (summaryLinesPq stPq) = (stPq.errors != 0)
    ∧ hasErrorsLine (summaryLinesDk stDk) = (stDk.errors != 0)
    ∧ hasErrorsLine (summaryLinesA stA) = (stA.errors != 0) := by
  refine ⟨?_, ?_, ?_⟩
  · by_cases h : stPq.errors = 0 <;> simp [summaryLinesPq, hasErrorsLine, h]
  · by_cases h : stDk.errors = 0 <;> simp [summaryLinesDk, hasErrorsLine, h]
  · by_cases h : stA.errors = 0 <;> simp [summaryLinesA, hasErrorsLine, h]

/-- C9 counterexample: a completed run with zero errors prints no errors
line in any of the three variants, so the count is not surfaced
unconditionally. -/
theorem c9_counterexample :
    hasErrorsLine (summaryLinesPq ⟨5, 2, 1, 3, 0⟩) = false
    ∧ hasErrorsLine (summaryLinesDk ⟨5, 2, 0⟩) = false
    ∧ hasErrorsLine (summaryLinesA ⟨5, 2, 3, 0⟩) = false := by
  decide
